import Mathlib

/-!
Verification development for the dd-cli repository (src/dd_cli/http.py and
src/dd_cli/cli.py): a shallow embedding of the HTTP response handling, site
normalization, custom-field encoding, incident enrichment, validate and
log-search pagination logic, followed by theorems settling the spec claims.

Conventions of the embedding:
* JSON values parsed by Python's json module are modelled by the inductive
  `Json` below (numbers are modelled as integers; floats are out of scope for
  every claim).  Python `None` and JSON `null` are both `Json.null`.
* Python dicts are association lists with unique keys; insertion order is kept
  (`dictSet` overwrites in place, appends at the end for a fresh key), matching
  CPython semantics.
* Code that can raise an exception is modelled in `Except`; the distinction the
  source draws between `DatadogAPIError` and every other exception is carried
  by `PyExc`.
-/

namespace DdCli

/-- Model of a parsed JSON / Python value (json.loads result). -/
inductive Json where
  | null : Json
  | bool : Bool → Json
  | num : Int → Json
  | str : String → Json
  | arr : List Json → Json
  | obj : List (String × Json) → Json

/-- Python truthiness of a value (`if v:`). -/
def truthy : Json → Bool
  | .null => false
  | .bool b => b
  | .num n => n != 0
  | .str s => s != ""
  | .arr xs => !xs.isEmpty
  | .obj kvs => !kvs.isEmpty

/-- Dict lookup (`d.get(k)` returning `None` for a missing key is
`(jLookup d k).getD Json.null`). Keys are assumed unique, so first match. -/
def jLookup : List (String × Json) → String → Option Json
  | [], _ => none
  | (k', v) :: rest, k => if k' = k then some v else jLookup rest k

mutual

/-- Model of Python `repr` on parsed JSON values (string escaping inside
`repr` of a str is not modelled; no claim exercises it). -/
def pyRepr : Json → String
  | .null => "None"
  | .bool true => "True"
  | .bool false => "False"
  | .num n => toString n
  | .str s => "'" ++ s ++ "'"
  | .arr xs => "[" ++ String.intercalate ", " (pyReprList xs) ++ "]"
  | .obj kvs => "\x7b" ++ String.intercalate ", " (pyReprPairs kvs) ++ "\x7d"

def pyReprList : List Json → List String
  | [] => []
  | x :: xs => pyRepr x :: pyReprList xs

def pyReprPairs : List (String × Json) → List String
  | [] => []
  | (k, v) :: kvs => ("'" ++ k ++ "': " ++ pyRepr v) :: pyReprPairs kvs

end

/-- Model of Python `str` on parsed JSON values (`str` of a str is the string
itself, otherwise `repr`). -/
def pyStr : Json → String
  | .str s => s
  | j => pyRepr j

/-- Model of Python iteration `for x in v`: `some` elements, or `none` when the
value is not iterable (a `TypeError` is raised). Iterating a str yields its
one-character strings; iterating a dict yields its keys. -/
def pyIter : Json → Option (List Json)
  | .arr xs => some xs
  | .str s => some (s.data.map fun c => Json.str (String.singleton c))
  | .obj kvs => some (kvs.map fun kv => Json.str kv.1)
  | _ => none

/-! ### http.py: `_normalize_site` -/

/-- Characters stripped by Python `str.strip()` (the ASCII whitespace set;
claims only involve ASCII input). -/
def isPySpace (c : Char) : Bool :=
  c = ' ' || c = '\t' || c = '\n' || c = '\r' || c = '\x0b' || c = '\x0c'

/-- Python `str.strip()` on the character list. -/
def stripChars (cs : List Char) : List Char :=
  ((cs.dropWhile isPySpace).reverse.dropWhile isPySpace).reverse

/-- Whether the string begins with `http://` or `https://`
(`site.startswith(("http://", "https://"))`). -/
def hasSchemeStart (cs : List Char) : Bool :=
  List.isPrefixOf ['h','t','t','p',':','/','/'] cs ||
  List.isPrefixOf ['h','t','t','p','s',':','/','/'] cs

/-- `urllib.parse.urlparse(s).netloc` for a string that begins with an
`http://` or `https://` scheme: everything after the `//` up to the first
`/`, `?` or `#`. -/
def urlparseNetloc (cs : List Char) : List Char :=
  let rest :=
    if List.isPrefixOf ['h','t','t','p','s',':','/','/'] cs then cs.drop 8
    else if List.isPrefixOf ['h','t','t','p',':','/','/'] cs then cs.drop 7
    else cs
  rest.takeWhile fun c => c != '/' && c != '?' && c != '#'

/-- Whether the string begins with `api.` (`site.startswith("api.")`). -/
def isApiStart (cs : List Char) : Bool :=
  List.isPrefixOf ['a','p','i','.'] cs

/-- `http.py` `_normalize_site` on the character list: strip whitespace, take
the netloc when a scheme is present, remove a leading `api.`. -/
def normChars (cs : List Char) : List Char :=
  let s1 := stripChars cs
  let s2 := if hasSchemeStart s1 then urlparseNetloc s1 else s1
  if isApiStart s2 then s2.drop 4 else s2

/-- `http.py` `_normalize_site`. -/
def normalize_site (site : String) : String :=
  ⟨normChars site.data⟩

/-! ### http.py: `DatadogAPIError` and `DatadogClient._request` -/

/-- `http.py` `DatadogAPIError` (status code, message, raw response body). -/
structure DatadogAPIError where
  status_code : Nat
  message : String
  response_body : Option String
deriving DecidableEq

/-- The two error kinds `_request` can raise: the structured API error, or a
`RuntimeError` (network failure / invalid JSON on a success response). -/
inductive RequestError where
  | api : DatadogAPIError → RequestError
  | runtime : String → RequestError

/-- An HTTP response as `_request` observes it: status code, raw body text
(`resp.text`), and the result of `resp.json()` (`none` when the body is not
valid JSON and the parse raises). -/
structure HttpResponse where
  status : Nat
  text : String
  parsed : Option Json

/-- The message-extraction of `_request`'s error branch: parse the body; if it
is a dict whose `errors` entry is truthy, join the `str` of its elements with
`"; "`; any failure (parse failure, or a `TypeError` iterating a non-iterable
`errors` value) leaves the generic message. -/
def errorsMessage (parsed : Option Json) : String :=
  match parsed with
  | some (Json.obj kvs) =>
    match jLookup kvs "errors" with
    | some v =>
      if truthy v then
        match pyIter v with
        | some elems => String.intercalate "; " (elems.map pyStr)
        | none => "Datadog API error"
      else "Datadog API error"
    | _ => "Datadog API error"
  | _ => "Datadog API error"

/-- `http.py` `DatadogClient._request`, response-handling part: a non-2xx
status raises `DatadogAPIError` (httpx `raise_for_status`) carrying the status,
the extracted message, and the raw body text; on a 2xx status the parsed JSON
is returned, or a `RuntimeError` is raised when the body is not valid JSON. -/
def requestResult (resp : HttpResponse) : Except RequestError Json :=
  if 200 ≤ resp.status ∧ resp.status < 300 then
    match resp.parsed with
    | some j => .ok j
    | none => .error (.runtime "Invalid JSON response")
  else
    .error (.api ⟨resp.status, errorsMessage resp.parsed, some resp.text⟩)

/-! ### cli.py: custom-field parsing (`_parse_custom_fields`) -/

/-- A Python dict of JSON values (association list, unique keys, insertion
order preserved). -/
abbrev Dict := List (String × Json)

/-- `d[k] = v` on a Python dict: overwrite in place when the key is present,
append at the end otherwise. -/
def dictSet : Dict → String → Json → Dict
  | [], k, v => [(k, v)]
  | (k', v') :: rest, k, v =>
    if k' = k then (k, v) :: rest else (k', v') :: dictSet rest k v

/-- Whether a string begins with `[` (`value.startswith("[")`). -/
def startsBracket (value : String) : Bool :=
  match value.data with
  | c :: _ => c = '['
  | [] => false

/-- The body of `_parse_custom_fields`' loop after `key, value = f.split("=", 1)`:
classify the key and encode the value (`cli.py` lines 206-223). -/
def encodeField (key value : String) : Json :=
  let field_type : String :=
    if key = "severity" ∨ key = "state" ∨ key = "detection_method" then "dropdown"
    else if key = "teams" ∨ key = "services" then "autocomplete"
    else if key = "trigger" ∨ key = "root_cause_type" ∨ key = "impact_type" then "multiselect"
    else "textbox"
  let field_value : Json :=
    if field_type = "multiselect" then
      (if value ≠ "" then Json.arr [Json.str value] else Json.null)
    else if field_type = "autocomplete" ∧ value ≠ "" then
      (if startsBracket value = false then Json.arr [Json.str value] else Json.str value)
    else
      (if value ≠ "" then Json.str value else Json.null)
  Json.obj [("type", Json.str field_type), ("value", field_value)]

/-- `f.split("=", 1)` guarded by `"=" in f`: `none` when the character is
absent, otherwise the parts before and after the first `=`. -/
def splitFirstEq : List Char → Option (List Char × List Char)
  | [] => none
  | c :: cs =>
    if c = '=' then some ([], cs)
    else
      match splitFirstEq cs with
      | some (a, b) => some (c :: a, b)
      | none => none

/-- The loop of `_parse_custom_fields`, accumulating into the `fields` dict;
`.error` is the `click.UsageError` raised for an argument without `=`. -/
def parseFieldsGo : List String → Dict → Except String Dict
  | [], fields => .ok fields
  | f :: rest, fields =>
    match splitFirstEq f.data with
    | none => .error ("Invalid field format: " ++ f ++ ". Use key=value format.")
    | some (k, v) => parseFieldsGo rest (dictSet fields ⟨k⟩ (encodeField ⟨k⟩ ⟨v⟩))

/-- `cli.py` `_parse_custom_fields`. -/
def parse_custom_fields (field : List String) : Except String Dict :=
  parseFieldsGo field []

/-! ### cli.py: `_build_update_attributes` and `update_incident_cmd` -/

/-- `cli.py` `_build_update_attributes`: assemble the attributes dict from the
optional flags and the `--field` arguments (a `.error` propagates the
`UsageError` raised inside `_parse_custom_fields`). -/
def build_update_attributes (title severity state : Option String)
    (customer_impacted : Option Bool) (customer_impact_scope : Option String)
    (field : List String) : Except String Dict :=
  let a : Dict := []
  let a := match title with | some t => dictSet a "title" (Json.str t) | none => a
  let a := match severity with | some s => dictSet a "severity" (Json.str s) | none => a
  let a := match state with | some s => dictSet a "state" (Json.str s) | none => a
  let a := match customer_impacted with
    | some b => dictSet a "customer_impacted" (Json.bool b) | none => a
  let a := match customer_impact_scope with
    | some s => dictSet a "customer_impact_scope" (Json.str s) | none => a
  if field.isEmpty then .ok a
  else
    match parse_custom_fields field with
    | .error m => .error m
    | .ok fs => .ok (if fs.isEmpty then a else dictSet a "fields" (Json.obj fs))

/-- `cli.py` `update_incident_cmd` up to the point the HTTP client is
constructed: `.error` is a usage error raised before `_get_client` runs (so no
HTTP call is attempted); `.ok attrs` means the command proceeds to construct
the client and send the PATCH with these attributes. -/
def update_incident_cmd (title severity state : Option String)
    (customer_impacted : Option Bool) (customer_impact_scope : Option String)
    (field : List String) : Except String Dict :=
  match build_update_attributes title severity state customer_impacted
      customer_impact_scope field with
  | .error m => .error m
  | .ok attributes =>
    if attributes.isEmpty then
      .error "No updates specified. Use --help to see available options."
    else .ok attributes

/-! ### cli.py: `validate_cmd` -/

/-- `http.py` `env`: read an environment variable, treating empty string as
unset. The first argument is the raw `os.getenv` result. -/
def env (raw : Option String) (default : Option String) : Option String :=
  match raw with
  | none => default
  | some v => if v = "" then default else some v

/-- `{"status": 200, **data}`: start from the base dict and write every entry
of the second dict over it, in order. -/
def pyMerge (base : Dict) (extra : Dict) : Dict :=
  extra.foldl (fun acc kv => dictSet acc kv.1 kv.2) base

/-- The credentials a `DatadogClient` is constructed with (sent as the
`DD-API-KEY` / `DD-APPLICATION-KEY` headers). -/
structure ClientCreds where
  api_key : String
  app_key : String
deriving DecidableEq

/-- `cli.py` `validate_cmd`, with the raw `DD_API_KEY` / `DD_APP_KEY`
environment values and the HTTP response of `GET /api/v1/validate` as inputs.
`.error` is a usage error / surfaced failure; `.ok` carries the credentials
the client was constructed with (proof the request was issued) and the JSON
printed on success. -/
def validate_cmd (dd_api_key dd_app_key : Option String) (resp : HttpResponse) :
    Except String (ClientCreds × Json) :=
  match env dd_api_key none with
  | none => .error "DD_API_KEY must be set"
  | some api_key =>
    let app_key := (env dd_app_key none).getD "unused"
    match requestResult resp with
    | .error (.api e) => .error (e.message ++ " (status=" ++ toString e.status_code ++ ")")
    | .error (.runtime m) => .error m
    | .ok (Json.obj kvs) =>
      .ok (⟨api_key, app_key⟩, Json.obj (pyMerge [("status", Json.num 200)] kvs))
    | .ok _ => .error "TypeError"

/-! ### cli.py: `search_logs_cmd` pagination loop -/

/-- `j.get(k, d)` on an arbitrary value: an `AttributeError` (`.error`) when
the value is not a dict. Passing `d := Json.null` models `j.get(k)`. -/
def jGetD (j : Json) (k : String) (d : Json) : Except String Json :=
  match j with
  | .obj kvs => .ok ((jLookup kvs k).getD d)
  | _ => .error "AttributeError"

/-- What one loop iteration extracts from a page response. -/
structure PageResult where
  entries : List Json
  after : Json

/-- One iteration body of the `search_logs_cmd` loop on a fetched page:
`logs = data.get("data", [])` kept only when it is a list, then
`cursor = (data.get("meta") or \x7b\x7d).get("page", \x7b\x7d).get("after")`.
`.error` is an uncaught `AttributeError` on a malformed shape. -/
def pageStep (data : Json) : Except String PageResult := do
  let logs ← jGetD data "data" (Json.arr [])
  let entries := match logs with | Json.arr xs => xs | _ => []
  let metaRaw ← jGetD data "meta" Json.null
  let meta := if truthy metaRaw then metaRaw else Json.obj []
  let page ← jGetD meta "page" (Json.obj [])
  let after ← jGetD page "after" Json.null
  .ok ⟨entries, after⟩

/-- `pageStep` succeeded (the page shape raised no exception). -/
def stepOk (data : Json) : Bool :=
  match pageStep data with
  | .ok _ => true
  | .error _ => false

/-- The entries a page contributes (`[]` when the step raised). -/
def entriesD (data : Json) : List Json :=
  match pageStep data with
  | .ok pr => pr.entries
  | .error _ => []

/-- The `after` cursor extracted from a page (`Json.null` when the step
raised). -/
def afterD (data : Json) : Json :=
  match pageStep data with
  | .ok pr => pr.after
  | .error _ => Json.null

/-- Outcome of the pagination loop: the cursor passed to each issued request
(in order; `Json.null` models the initial `cursor = None`), the accumulated
log entries, and the error of an uncaught exception when one was raised. -/
structure SearchRun where
  cursors : List Json
  logs : List Json
  err : Option String

/-- The `for _ in range(max_pages)` loop of `search_logs_cmd`. The response
oracle `fetch` maps (request index, cursor sent) to the page returned by
`dd.search_logs`; the fuel is the number of remaining iterations. -/
def searchGo (fetch : Nat → Json → Json) : Nat → Nat → Json → SearchRun
  | 0, _, _ => ⟨[], [], none⟩
  | fuel + 1, i, cursor =>
    match pageStep (fetch i cursor) with
    | .error e => ⟨[cursor], [], some e⟩
    | .ok pr =>
      if truthy pr.after then
        let r := searchGo fetch fuel (i + 1) pr.after
        ⟨cursor :: r.cursors, pr.entries ++ r.logs, r.err⟩
      else ⟨[cursor], pr.entries, none⟩

/-- `cli.py` `search_logs_cmd` loop: `max_pages = 50 if all_pages else 1`,
starting with `cursor = None`. -/
def search_logs_cmd (fetch : Nat → Json → Json) (all_pages : Bool) : SearchRun :=
  searchGo fetch (if all_pages then 50 else 1) 0 Json.null

/-- The JSON the command prints on success:
`\x7b"data": all_logs, "count": len(all_logs)\x7d`. -/
def searchOutput (r : SearchRun) : Json :=
  Json.obj [("data", Json.arr r.logs), ("count", Json.num r.logs.length)]

/-- The concatenation, in order, of the entries contributed by the page
returned for each issued request (request `i` was sent the i-th cursor). -/
def concatEntries (fetch : Nat → Json → Json) : Nat → List Json → List Json
  | _, [] => []
  | i, c :: rest => entriesD (fetch i c) ++ concatEntries fetch (i + 1) rest

/-- The shape conditions under which one loop iteration cannot raise: the page
is a dict, and the value driving the cursor extraction (`meta` when truthy,
else the empty dict) is a dict whose `page` entry (defaulting to the empty
dict) is a dict. -/
def pageShapeOk (data : Json) : Bool :=
  match data with
  | .obj kvs =>
    let metaRaw := (jLookup kvs "meta").getD Json.null
    let meta := if truthy metaRaw then metaRaw else Json.obj []
    (match meta with
     | .obj m =>
       (match (jLookup m "page").getD (Json.obj []) with
        | .obj _ => true
        | _ => false)
     | _ => false)
  | _ => false

/-- Whether a value is a JSON list (`isinstance(v, list)`). -/
def Json.isArr : Json → Bool
  | .arr _ => true
  | _ => false

/-! ### cli.py: `_enrich_incident` and `get_incident_cmd` -/

/-- The exception kinds the enrichment code distinguishes: the structured
`DatadogAPIError`, and every other exception (carrying its `str`). -/
inductive PyExc where
  | apiError : DatadogAPIError → PyExc
  | other : String → PyExc

/-- `data.setdefault("enrichment", \x7b\x7d)[k] = v` on the incident dict: an
`AttributeError` (`.error`) when a pre-existing `enrichment` entry is not a
dict. -/
def setEnrich (d : Dict) (k : String) (v : Json) : Except String Dict :=
  match jLookup d "enrichment" with
  | none => .ok (dictSet d "enrichment" (Json.obj [(k, v)]))
  | some (Json.obj e) => .ok (dictSet d "enrichment" (Json.obj (dictSet e k v)))
  | some _ => .error "AttributeError"

/-- The `incident_type_uuid` chain of `_enrich_incident`:
`data.get("data", \x7b\x7d).get("attributes", \x7b\x7d).get("incident_type_uuid")`. -/
def incidentTypeUuid (data : Dict) : Except String Json := do
  let attrs ← jGetD ((jLookup data "data").getD (Json.obj [])) "attributes" (Json.obj [])
  jGetD attrs "incident_type_uuid" Json.null

/-- The `incident_id` chain of `_enrich_incident`:
`data.get("data", \x7b\x7d).get("id", "")`. -/
def incidentIdOf (data : Dict) : Except String Json :=
  jGetD ((jLookup data "data").getD (Json.obj [])) "id" (Json.str "")

/-- The first `try` block of `_enrich_incident` (the incident-type fetch):
look up the uuid, fetch the type when the uuid is truthy, record it under
`enrichment.incident_type`; `except DatadogAPIError: pass` leaves the dict
unchanged; any other exception escapes, as `.error` carrying its `str` and
the dict state at the raise. -/
def typeStep (getType : Json → Except PyExc Json) (data : Dict) :
    Except (String × Dict) Dict :=
  match incidentTypeUuid data with
  | .error m => .error (m, data)
  | .ok uuid =>
    if truthy uuid then
      match getType uuid with
      | .ok t =>
        (match setEnrich data "incident_type" t with
         | .ok d => .ok d
         | .error m => .error (m, data))
      | .error (.apiError _) => .ok data
      | .error (.other m) => .error (m, data)
    else .ok data

/-- The second `try` block of `_enrich_incident` (the integrations fetch),
run on the dict state the first block left behind; same exception
discipline as `typeStep`. -/
def integrationsStep (getIntegrations : Json → Except PyExc Json) (d2 : Dict) :
    Except (String × Dict) Dict :=
  match incidentIdOf d2 with
  | .error m => .error (m, d2)
  | .ok iid =>
    if truthy iid then
      match getIntegrations iid with
      | .ok ig =>
        (match setEnrich d2 "integrations" ig with
         | .ok d3 => .ok d3
         | .error m => .error (m, d2))
      | .error (.apiError _) => .ok d2
      | .error (.other m) => .error (m, d2)
    else .ok d2

/-- The body of `_enrich_incident`'s outer `try`: the two auxiliary-fetch
blocks in sequence. An `.error` carries the `str` of the escaping exception
together with the dict state at that point (the Python code mutates `data`
in place, so partial updates survive the raise). -/
def enrichBody (getType getIntegrations : Json → Except PyExc Json)
    (data : Dict) : Except (String × Dict) Dict :=
  match typeStep getType data with
  | .error e => .error e
  | .ok d2 => integrationsStep getIntegrations d2

/-- `cli.py` `_enrich_incident`: run the body; the `except Exception` handler
records the failure as `"Enrichment failed: ..."` under `enrichment.errors`.
The final `.error` is the (unhandled) exception raised by the handler itself
when the `enrichment` entry is not a dict. -/
def enrich_incident (getType getIntegrations : Json → Except PyExc Json)
    (data : Dict) : Except String Dict :=
  match enrichBody getType getIntegrations data with
  | .ok d => .ok d
  | .error (m, d) =>
    match setEnrich d "errors" (Json.str ("Enrichment failed: " ++ m)) with
    | .ok d2 => .ok d2
    | .error m2 => .error m2

/-- Lookup of a key inside the `enrichment` entry of the incident dict. -/
def enrichLookup (d : Dict) (k : String) : Option Json :=
  match jLookup d "enrichment" with
  | some (Json.obj e) => jLookup e k
  | _ => none

/-- Whether a fetch result is a raised `DatadogAPIError`. -/
def isApiErr {α : Type} : Except PyExc α → Bool
  | .error (.apiError _) => true
  | _ => false

/-- Dict states reachable from `base` by enrichment writes: every key other
than `enrichment` still holds its original value, and the `enrichment` entry
is absent or an object. -/
def dictLike (base d : Dict) : Prop :=
  (∀ k, k ≠ "enrichment" → jLookup d k = jLookup base k) ∧
  (jLookup d "enrichment" = none ∨ ∃ e, jLookup d "enrichment" = some (Json.obj e))

/-- A concrete incident response dict used to evaluate the enrichment
theorem: it carries an incident-type uuid and an incident id. -/
def incidentSample : Dict :=
  [("data", Json.obj [("attributes", Json.obj [("incident_type_uuid", Json.str "u1")]),
                      ("id", Json.str "i1")])]

/-- A type-fetch oracle that always raises a `DatadogAPIError`. -/
def typeFetchApiErr : Json → Except PyExc Json :=
  fun _ => .error (.apiError ⟨404, "Not Found", some "nf"⟩)

/-- An integrations-fetch oracle that always succeeds with an empty object. -/
def integrationsFetchOk : Json → Except PyExc Json :=
  fun _ => .ok (Json.obj [])

/-- The enriched dict `enrich_incident typeFetchApiErr integrationsFetchOk
incidentSample` evaluates to: the failing type fetch is swallowed, the
integrations fetch is recorded. -/
def enrichedSample : Dict :=
  [("data", Json.obj [("attributes", Json.obj [("incident_type_uuid", Json.str "u1")]),
                      ("id", Json.str "i1")]),
   ("enrichment", Json.obj [("integrations", Json.obj [])])]

/-- Whether an `Except` computation raised. -/
def isErrB {ε α : Type} : Except ε α → Bool
  | .error _ => true
  | .ok _ => false

/-- A concrete two-page response oracle (page 0 carries a cursor to page 1,
page 1 carries none), used to evaluate the pagination theorem. -/
def fetchTwoPages : Nat → Json → Json := fun i _ =>
  if i = 0 then
    Json.obj [("data", Json.arr [Json.str "log1"]),
              ("meta", Json.obj [("page", Json.obj [("after", Json.str "c1")])])]
  else
    Json.obj [("data", Json.arr [Json.str "log2"]), ("meta", Json.obj [])]

/-! ## Theorems -/

/-- A character list at a fixed point of the normalization steps is unchanged
by `normChars`. -/
theorem normChars_fixed (d : List Char) (h1 : stripChars d = d)
    (h2 : hasSchemeStart d = false) (h3 : isApiStart d = false) :
    normChars d = d := by
  simp [normChars, h1, h2, h3]

/-- C2, counterexample: site normalization is not idempotent on every input;
on `"api.api.x"` the first application yields `"api.x"` and a second
application strips a further `api.` prefix, yielding `"x"`. -/
theorem c2_normalize_idem_cex :
    normalize_site (normalize_site "api.api.x") ≠ normalize_site "api.api.x" := by
  decide

/-- C2, amended: site normalization strips an `http://`/`https://` scheme and
one leading `api.` prefix (so the spec's example chain
`normalize("https://api.us3.datadoghq.com") = normalize("us3.datadoghq.com")
= "us3.datadoghq.com"` holds), and it is idempotent at every input whose
normalized form is whitespace-trimmed and does not itself start with a scheme
or with `api.`. -/
theorem c2_normalize_idem_amended (s : String)
    (hstrip : stripChars (normalize_site s).data = (normalize_site s).data)
    (hscheme : hasSchemeStart (normalize_site s).data = false)
    (hapi : isApiStart (normalize_site s).data = false) :
    normalize_site (normalize_site s) = normalize_site s ∧
    normalize_site "https://api.us3.datadoghq.com" = "us3.datadoghq.com" ∧
    normalize_site "us3.datadoghq.com" = "us3.datadoghq.com" := by
  refine ⟨?_, by decide, by decide⟩
  show (⟨normChars (normalize_site s).data⟩ : String) = normalize_site s
  rw [normChars_fixed _ hstrip hscheme hapi]

/-- C2, witness for the amended theorem at `"https://api.us3.datadoghq.com"`. -/
theorem c2_normalize_idem_witness :
    stripChars (normalize_site "https://api.us3.datadoghq.com").data
        = (normalize_site "https://api.us3.datadoghq.com").data ∧
    hasSchemeStart (normalize_site "https://api.us3.datadoghq.com").data = false ∧
    isApiStart (normalize_site "https://api.us3.datadoghq.com").data = false ∧
    (normalize_site (normalize_site "https://api.us3.datadoghq.com")
        = normalize_site "https://api.us3.datadoghq.com" ∧
     normalize_site "https://api.us3.datadoghq.com" = "us3.datadoghq.com" ∧
     normalize_site "us3.datadoghq.com" = "us3.datadoghq.com") :=
  ⟨by decide, by decide, by decide,
   c2_normalize_idem_amended "https://api.us3.datadoghq.com"
     (by decide) (by decide) (by decide)⟩

/-- C3, counterexample: a 4xx response whose body is a JSON object with an
*empty* `errors` list yields the generic message `"Datadog API error"`, not
the join of the list's elements (which would be the empty string): the empty
list is falsy in Python, so the `payload.get("errors")` guard rejects it. -/
theorem c3_errors_join_cex :
    requestResult ⟨400, "b", some (Json.obj [("errors", Json.arr [])])⟩
        = Except.error (RequestError.api ⟨400, "Datadog API error", some "b"⟩) ∧
    "Datadog API error" ≠ String.intercalate "; " (List.map pyStr []) :=
  ⟨rfl, by decide⟩

/-- C3, amended: for every 4xx/5xx response whose body parses as a JSON object
containing a *non-empty* `errors` list, `_request` raises the structured API
error whose message is the `str` of the list's elements joined with `"; "`,
and whose status code and raw body text are the response's status and body
verbatim. -/
theorem c3_errors_join (status : Nat) (text : String) (kvs : List (String × Json))
    (elems : List Json) (h4 : 400 ≤ status) (h5 : status ≤ 599)
    (he : jLookup kvs "errors" = some (Json.arr elems)) (hne : elems ≠ []) :
    requestResult ⟨status, text, some (Json.obj kvs)⟩
      = Except.error (RequestError.api
          ⟨status, String.intercalate "; " (elems.map pyStr), some text⟩) := by
  have ht : truthy (Json.arr elems) = true := by
    simp [truthy, List.isEmpty_iff, hne]
  simp [requestResult, errorsMessage, he, ht, pyIter]
  omega

/-- C3, witness for the amended theorem: body `(object with errors list
["a", "b"])` at status 403 yields the message `"a; b"`. -/
theorem c3_errors_join_witness :
    400 ≤ 403 ∧ 403 ≤ 599 ∧
    jLookup [("errors", Json.arr [Json.str "a", Json.str "b"])] "errors"
        = some (Json.arr [Json.str "a", Json.str "b"]) ∧
    [Json.str "a", Json.str "b"] ≠ ([] : List Json) ∧
    requestResult ⟨403, "raw", some (Json.obj [("errors", Json.arr [Json.str "a", Json.str "b"])])⟩
      = Except.error (RequestError.api
          ⟨403, String.intercalate "; " ([Json.str "a", Json.str "b"].map pyStr), some "raw"⟩) :=
  ⟨by decide, by decide, rfl, List.cons_ne_nil _ _,
   c3_errors_join 403 "raw" [("errors", Json.arr [Json.str "a", Json.str "b"])]
     [Json.str "a", Json.str "b"] (by decide) (by decide) rfl (List.cons_ne_nil _ _)⟩

/-- C4: for every 4xx/5xx response whose body is not valid JSON, `_request`
raises the structured API error with the generic message
`"Datadog API error"` and the response's body text unchanged. -/
theorem c4_invalid_json_generic (status : Nat) (text : String)
    (h4 : 400 ≤ status) (h5 : status ≤ 599) :
    requestResult ⟨status, text, none⟩
      = Except.error (RequestError.api ⟨status, "Datadog API error", some text⟩) := by
  simp [requestResult, errorsMessage]
  omega

/-- C4, witness at status 500 with body `"oops"`. -/
theorem c4_invalid_json_generic_witness :
    400 ≤ 500 ∧ 500 ≤ 599 ∧
    requestResult ⟨500, "oops", none⟩
      = Except.error (RequestError.api ⟨500, "Datadog API error", some "oops"⟩) :=
  ⟨by decide, by decide, c4_invalid_json_generic 500 "oops" (by decide) (by decide)⟩

/-- `(key ++ "=" ++ value).data` seen as a character list. -/
theorem data_key_eq_value (key value : String) :
    (key ++ "=" ++ value).data = key.data ++ '=' :: value.data := by
  simp [String.data_append]

/-- Splitting at the first `=` of `key ++ "=" ++ value` when `key` contains no
`=` gives back the two parts. -/
theorem splitFirstEq_append (kd vd : List Char) (h : kd.contains '=' = false) :
    splitFirstEq (kd ++ '=' :: vd) = some (kd, vd) := by
  induction kd with
  | nil => simp [splitFirstEq]
  | cons c rest ih =>
    simp only [List.contains_cons, Bool.or_eq_false_iff] at h
    have hc : ¬ c = '=' := by
      intro hcc; rw [hcc] at h; simp at h
    simp [splitFirstEq, hc, ih h.2]

/-- A character list without `=` has no first-`=` split. -/
theorem splitFirstEq_none (cs : List Char) (h : cs.contains '=' = false) :
    splitFirstEq cs = none := by
  induction cs with
  | nil => rfl
  | cons c rest ih =>
    simp only [List.contains_cons, Bool.or_eq_false_iff] at h
    have hc : ¬ c = '=' := by
      intro hcc; rw [hcc] at h; simp at h
    simp [splitFirstEq, hc, ih h.2]

/-- `_parse_custom_fields` on one well-formed `key=value` argument encodes it
with `encodeField`. -/
theorem parse_single (key value : String) (h : key.data.contains '=' = false) :
    parse_custom_fields [key ++ "=" ++ value] = .ok [(key, encodeField key value)] := by
  obtain ⟨kd⟩ := key
  obtain ⟨vd⟩ := value
  simp only [parse_custom_fields, parseFieldsGo, data_key_eq_value]
  rw [splitFirstEq_append kd vd h]
  rfl

/-- C1: each `--field key=value` argument is classified by the fixed
membership table (severity/state/detection_method → dropdown; teams/services →
autocomplete; trigger/root_cause_type/impact_type → multiselect; other →
textbox) and encoded as a `(type, value)` record: dropdown and textbox carry
the raw string or null when empty; multiselect carries `[value]` or null when
empty; autocomplete carries `[value]` when non-empty and not starting with
`[`, and the raw string when it starts with `[`; in particular the four
spec examples hold. -/
theorem c1_custom_field_encoding :
    (∀ key value : String, key.data.contains '=' = false →
      (key = "severity" ∨ key = "state" ∨ key = "detection_method") →
      parse_custom_fields [key ++ "=" ++ value]
        = .ok [(key, Json.obj [("type", Json.str "dropdown"),
            ("value", if value = "" then Json.null else Json.str value)])]) ∧
    (∀ key value : String, key.data.contains '=' = false →
      (key = "teams" ∨ key = "services") → value ≠ "" →
      parse_custom_fields [key ++ "=" ++ value]
        = .ok [(key, Json.obj [("type", Json.str "autocomplete"),
            ("value", if startsBracket value then Json.str value
                      else Json.arr [Json.str value])])]) ∧
    (∀ key value : String, key.data.contains '=' = false →
      (key = "trigger" ∨ key = "root_cause_type" ∨ key = "impact_type") →
      parse_custom_fields [key ++ "=" ++ value]
        = .ok [(key, Json.obj [("type", Json.str "multiselect"),
            ("value", if value = "" then Json.null
                      else Json.arr [Json.str value])])]) ∧
    (∀ key value : String, key.data.contains '=' = false →
      ¬(key = "severity" ∨ key = "state" ∨ key = "detection_method") →
      ¬(key = "teams" ∨ key = "services") →
      ¬(key = "trigger" ∨ key = "root_cause_type" ∨ key = "impact_type") →
      parse_custom_fields [key ++ "=" ++ value]
        = .ok [(key, Json.obj [("type", Json.str "textbox"),
            ("value", if value = "" then Json.null else Json.str value)])]) ∧
    parse_custom_fields ["severity=SEV-1"]
      = .ok [("severity", Json.obj [("type", Json.str "dropdown"),
          ("value", Json.str "SEV-1")])] ∧
    parse_custom_fields ["teams=infra"]
      = .ok [("teams", Json.obj [("type", Json.str "autocomplete"),
          ("value", Json.arr [Json.str "infra"])])] ∧
    parse_custom_fields ["trigger=outage"]
      = .ok [("trigger", Json.obj [("type", Json.str "multiselect"),
          ("value", Json.arr [Json.str "outage"])])] ∧
    parse_custom_fields ["trigger="]
      = .ok [("trigger", Json.obj [("type", Json.str "multiselect"),
          ("value", Json.null)])] := by
  refine ⟨?_, ?_, ?_, ?_, rfl, rfl, rfl, rfl⟩
  · intro key value hEq hk
    rw [parse_single key value hEq]
    rcases hk with rfl | rfl | rfl <;> by_cases hv : value = "" <;>
      simp [encodeField, hv]
  · intro key value hEq hk hv
    rw [parse_single key value hEq]
    rcases hk with rfl | rfl <;> cases hb : startsBracket value <;>
      simp [encodeField, hv, hb]
  · intro key value hEq hk
    rw [parse_single key value hEq]
    rcases hk with rfl | rfl | rfl <;> by_cases hv : value = "" <;>
      simp [encodeField, hv]
  · intro key value hEq h1 h2 h3
    rw [parse_single key value hEq]
    by_cases hv : value = "" <;> simp [encodeField, h1, h2, h3, hv]

/-- C1, witness: the dropdown clause applied at `severity=SEV-1`. -/
theorem c1_custom_field_encoding_witness :
    ("severity" : String).data.contains '=' = false ∧
    (("severity" : String) = "severity" ∨ ("severity" : String) = "state" ∨
      ("severity" : String) = "detection_method") ∧
    parse_custom_fields ["severity" ++ "=" ++ "SEV-1"]
      = .ok [("severity", Json.obj [("type", Json.str "dropdown"),
          ("value", if ("SEV-1" : String) = "" then Json.null
                    else Json.str "SEV-1")])] :=
  ⟨by decide, Or.inl rfl,
   c1_custom_field_encoding.1 "severity" "SEV-1" (by decide) (Or.inl rfl)⟩

/-- C9: an autocomplete-classified custom field (`teams` or `services`) given
with an empty value encodes to a record with value null — not an empty list
and not an empty string. -/
theorem c9_autocomplete_empty_null :
    parse_custom_fields ["teams="]
      = .ok [("teams", Json.obj [("type", Json.str "autocomplete"),
          ("value", Json.null)])] ∧
    parse_custom_fields ["services="]
      = .ok [("services", Json.obj [("type", Json.str "autocomplete"),
          ("value", Json.null)])] :=
  ⟨rfl, rfl⟩

/-- The parsing loop raises a usage error whenever some argument contains no
`=`. -/
theorem parseFieldsGo_err (field : List String) (f : String) (hf : f ∈ field)
    (h : f.data.contains '=' = false) (acc : Dict) :
    isErrB (parseFieldsGo field acc) = true := by
  induction field generalizing acc with
  | nil => cases hf
  | cons g rest ih =>
    cases hsp : splitFirstEq g.data with
    | none => simp [parseFieldsGo, hsp, isErrB]
    | some kv =>
      rcases List.mem_cons.mp hf with rfl | hmem
      · rw [splitFirstEq_none _ h] at hsp; cases hsp
      · simpa [parseFieldsGo, hsp] using ih hmem _

/-- C7: `update-incident` with none of the optional attribute flags and no
`--field` arguments fails with the no-updates usage error, and any `--field`
argument without `=` makes the command fail; in the embedding a `.error`
result is a usage error raised in `update_incident_cmd` before `_get_client`
runs, so no HTTP client is constructed and no HTTP call is attempted. -/
theorem c7_update_usage_errors :
    update_incident_cmd none none none none none []
      = Except.error "No updates specified. Use --help to see available options." ∧
    (∀ (title severity state : Option String) (ci : Option Bool)
       (cis : Option String) (field : List String) (f : String),
       f ∈ field → f.data.contains '=' = false →
       isErrB (update_incident_cmd title severity state ci cis field) = true) := by
  refine ⟨rfl, ?_⟩
  intro title severity state ci cis field f hf h
  have hne : field.isEmpty = false := by
    cases field with
    | nil => cases hf
    | cons a rest => rfl
  have hp := parseFieldsGo_err field f hf h []
  unfold update_incident_cmd build_update_attributes
  rw [hne]
  simp only [Bool.false_eq_true, if_false]
  cases hgo : parseFieldsGo field [] with
  | error m => simp [parse_custom_fields, hgo, isErrB]
  | ok d => rw [hgo] at hp; simp [isErrB] at hp

/-- C7, witness: `--field malformed` (no `=`) fails as a usage error. -/
theorem c7_update_usage_errors_witness :
    ("malformed" : String) ∈ ["malformed"] ∧
    ("malformed" : String).data.contains '=' = false ∧
    isErrB (update_incident_cmd none none none none none ["malformed"]) = true :=
  ⟨by decide, by decide,
   c7_update_usage_errors.2 none none none none none ["malformed"] "malformed"
     (by decide) (by decide)⟩

/-- C8: `validate` requires only the API key: with no application key set the
client is constructed with the placeholder application key `"unused"` and the
request is still issued, and on a 2xx response with JSON-object body the
command succeeds (exits zero) printing `(status: 200)` merged with the
endpoint's response. -/
theorem c8_validate_placeholder (k : String) (hk : ¬ k = "")
    (appRaw : Option String) (happ : env appRaw none = none)
    (status : Nat) (text : String) (kvs : List (String × Json))
    (h2 : 200 ≤ status) (h3 : status < 300) :
    validate_cmd (some k) appRaw ⟨status, text, some (Json.obj kvs)⟩
      = .ok (⟨k, "unused"⟩, Json.obj (pyMerge [("status", Json.num 200)] kvs)) := by
  have h1 : env (some k) none = some k := by simp [env, hk]
  unfold validate_cmd
  rw [h1, happ]
  unfold requestResult
  rw [if_pos ⟨h2, h3⟩]
  rfl

/-- C8, witness: API key `"K"`, `DD_APP_KEY` unset, a 200 response with body
object `(valid: true)`. -/
theorem c8_validate_placeholder_witness :
    ¬ ("K" : String) = "" ∧ env none none = none ∧ 200 ≤ 200 ∧ 200 < 300 ∧
    validate_cmd (some "K") none ⟨200, "t", some (Json.obj [("valid", Json.bool true)])⟩
      = .ok (⟨"K", "unused"⟩,
          Json.obj (pyMerge [("status", Json.num 200)] [("valid", Json.bool true)])) :=
  ⟨by decide, rfl, by decide, by decide,
   c8_validate_placeholder "K" (by decide) none rfl 200 "t"
     [("valid", Json.bool true)] (by decide) (by decide)⟩

/-- Unfolding: an iteration whose page shape raises ends the run with the
error recorded. -/
theorem searchGo_succ_err {fetch : Nat → Json → Json} {i : Nat} {c : Json}
    {e : String} (n : Nat) (hps : pageStep (fetch i c) = .error e) :
    searchGo fetch (n + 1) i c = ⟨[c], [], some e⟩ := by
  unfold searchGo
  rw [hps]

/-- Unfolding: an iteration whose extracted cursor is falsy breaks the loop. -/
theorem searchGo_succ_stop {fetch : Nat → Json → Json} {i : Nat} {c : Json}
    {pr : PageResult} (n : Nat) (hps : pageStep (fetch i c) = .ok pr)
    (ht : truthy pr.after = false) :
    searchGo fetch (n + 1) i c = ⟨[c], pr.entries, none⟩ := by
  unfold searchGo
  rw [hps]
  simp [ht]

/-- Unfolding: an iteration whose extracted cursor is truthy recurses with it. -/
theorem searchGo_succ_go {fetch : Nat → Json → Json} {i : Nat} {c : Json}
    {pr : PageResult} (n : Nat) (hps : pageStep (fetch i c) = .ok pr)
    (ht : truthy pr.after = true) :
    searchGo fetch (n + 1) i c
      = ⟨c :: (searchGo fetch n (i + 1) pr.after).cursors,
         pr.entries ++ (searchGo fetch n (i + 1) pr.after).logs,
         (searchGo fetch n (i + 1) pr.after).err⟩ := by
  simp only [searchGo]
  rw [hps]
  simp [ht]

/-- The loop issues at most `fuel` requests. -/
theorem searchGo_len (fetch : Nat → Json → Json) (fuel : Nat) :
    ∀ (i : Nat) (c : Json), (searchGo fetch fuel i c).cursors.length ≤ fuel := by
  induction fuel with
  | zero => intro i c; simp [searchGo]
  | succ n ih =>
    intro i c
    cases hps : pageStep (fetch i c) with
    | error e => rw [searchGo_succ_err n hps]; simp
    | ok pr =>
      cases ht : truthy pr.after with
      | false => rw [searchGo_succ_stop n hps ht]; simp
      | true =>
        rw [searchGo_succ_go n hps ht]
        simpa using ih (i + 1) pr.after

/-- With at least one iteration of fuel the loop issues at least one request. -/
theorem searchGo_len_pos (fetch : Nat → Json → Json) (n : Nat) (i : Nat) (c : Json) :
    0 < (searchGo fetch (n + 1) i c).cursors.length := by
  cases hps : pageStep (fetch i c) with
  | error e => rw [searchGo_succ_err n hps]; simp
  | ok pr =>
    cases ht : truthy pr.after with
    | false => rw [searchGo_succ_stop n hps ht]; simp
    | true => rw [searchGo_succ_go n hps ht]; simp

/-- The first request is issued with the starting cursor. -/
theorem searchGo_head (fetch : Nat → Json → Json) (n : Nat) (i : Nat) (c : Json) :
    (searchGo fetch (n + 1) i c).cursors.getD 0 Json.null = c := by
  cases hps : pageStep (fetch i c) with
  | error e => rw [searchGo_succ_err n hps]; rfl
  | ok pr =>
    cases ht : truthy pr.after with
    | false => rw [searchGo_succ_stop n hps ht]; rfl
    | true => rw [searchGo_succ_go n hps ht]; rfl

/-- Chaining: while requests keep being issued, the cursor extracted from the
page of request `j` is truthy and is exactly the cursor sent with request
`j + 1`. -/
theorem searchGo_chain (fetch : Nat → Json → Json) (fuel : Nat) :
    ∀ (i : Nat) (c : Json) (j : Nat),
      j + 1 < (searchGo fetch fuel i c).cursors.length →
      truthy (afterD (fetch (i + j)
          ((searchGo fetch fuel i c).cursors.getD j Json.null))) = true ∧
      (searchGo fetch fuel i c).cursors.getD (j + 1) Json.null
        = afterD (fetch (i + j)
            ((searchGo fetch fuel i c).cursors.getD j Json.null)) := by
  induction fuel with
  | zero => intro i c j h; simp [searchGo] at h
  | succ n ih =>
    intro i c j h
    cases hps : pageStep (fetch i c) with
    | error e => rw [searchGo_succ_err n hps] at h; simp at h
    | ok pr =>
      cases ht : truthy pr.after with
      | false => rw [searchGo_succ_stop n hps ht] at h; simp at h
      | true =>
        rw [searchGo_succ_go n hps ht] at h ⊢
        cases j with
        | zero =>
          have hlen : 0 < (searchGo fetch n (i + 1) pr.after).cursors.length := by
            simpa using Nat.lt_of_succ_lt_succ h
          obtain ⟨m, rfl⟩ : ∃ m, n = m + 1 := by
            cases n with
            | zero => simp [searchGo] at hlen
            | succ m => exact ⟨m, rfl⟩
          constructor
          · simp only [Nat.add_zero, List.getD_cons_zero, afterD, hps, ht]
          · simp only [Nat.add_zero, List.getD_cons_zero, List.getD_cons_succ, afterD, hps]
            exact searchGo_head fetch m (i + 1) pr.after
        | succ jj =>
          have h' : jj + 1 < (searchGo fetch n (i + 1) pr.after).cursors.length := by
            simpa using Nat.lt_of_succ_lt_succ h
          have harith : i + (jj + 1) = (i + 1) + jj := by omega
          rw [harith]
          simpa using ih (i + 1) pr.after jj h'

/-- On a clean run the accumulated logs are the concatenation, in request
order, of the entries of each fetched page. -/
theorem searchGo_logs (fetch : Nat → Json → Json) (fuel : Nat) :
    ∀ (i : Nat) (c : Json), (searchGo fetch fuel i c).err = none →
      (searchGo fetch fuel i c).logs
        = concatEntries fetch i (searchGo fetch fuel i c).cursors := by
  induction fuel with
  | zero => intro i c _; simp [searchGo, concatEntries]
  | succ n ih =>
    intro i c h
    cases hps : pageStep (fetch i c) with
    | error e => rw [searchGo_succ_err n hps] at h; simp at h
    | ok pr =>
      cases ht : truthy pr.after with
      | false =>
        rw [searchGo_succ_stop n hps ht]
        simp [concatEntries, entriesD, hps]
      | true =>
        rw [searchGo_succ_go n hps ht] at h ⊢
        simp only [concatEntries]
        rw [← ih (i + 1) pr.after h]
        simp [entriesD, hps]

/-- On a clean run that stops before exhausting its fuel, the page of the
last request carried no (truthy) cursor. -/
theorem searchGo_last (fetch : Nat → Json → Json) (fuel : Nat) :
    ∀ (i : Nat) (c : Json), (searchGo fetch fuel i c).err = none →
      (searchGo fetch fuel i c).cursors.length < fuel →
      truthy (afterD (fetch (i + ((searchGo fetch fuel i c).cursors.length - 1))
        ((searchGo fetch fuel i c).cursors.getD
          ((searchGo fetch fuel i c).cursors.length - 1) Json.null))) = false := by
  induction fuel with
  | zero => intro i c _ h; simp at h
  | succ n ih =>
    intro i c herr h
    cases hps : pageStep (fetch i c) with
    | error e => rw [searchGo_succ_err n hps] at herr; simp at herr
    | ok pr =>
      cases ht : truthy pr.after with
      | false =>
        rw [searchGo_succ_stop n hps ht]
        simpa [afterD, hps] using ht
      | true =>
        rw [searchGo_succ_go n hps ht] at herr h ⊢
        set r := searchGo fetch n (i + 1) pr.after with hr
        have hlt : r.cursors.length < n := by
          simpa using Nat.lt_of_succ_lt_succ h
        have hpos : 0 < r.cursors.length := by
          obtain ⟨m, rfl⟩ : ∃ m, n = m + 1 := by
            cases n with
            | zero => simp at hlt
            | succ m => exact ⟨m, rfl⟩
          exact searchGo_len_pos fetch m (i + 1) pr.after
        have hlen : (c :: r.cursors).length - 1 = (r.cursors.length - 1) + 1 := by
          simp; omega
        rw [hlen, List.getD_cons_succ]
        have harith : i + (r.cursors.length - 1 + 1) = (i + 1) + (r.cursors.length - 1) := by
          omega
        rw [harith]
        exact ih (i + 1) pr.after herr hlt

/-- C5: with `--all-pages`, the loop issues at most 50 requests whatever the
responses are; while it iterates, the `meta.page.after` cursor extracted from
the page of request `j` is truthy (non-empty) and is passed as the cursor of
request `j + 1`; on a clean run that stops before the 50-request cap, the last
page's cursor was falsy (omitted or empty); and the printed result is the
object `(data, count)` where `data` is the concatenation of every page's log
entries in request order and `count` its length. -/
theorem c5_search_logs_pagination (fetch : Nat → Json → Json) :
    (search_logs_cmd fetch true).cursors.length ≤ 50 ∧
    (∀ j : Nat, j + 1 < (search_logs_cmd fetch true).cursors.length →
      truthy (afterD (fetch j
          ((search_logs_cmd fetch true).cursors.getD j Json.null))) = true ∧
      (search_logs_cmd fetch true).cursors.getD (j + 1) Json.null
        = afterD (fetch j ((search_logs_cmd fetch true).cursors.getD j Json.null))) ∧
    ((search_logs_cmd fetch true).err = none →
      (search_logs_cmd fetch true).cursors.length < 50 →
      truthy (afterD (fetch ((search_logs_cmd fetch true).cursors.length - 1)
        ((search_logs_cmd fetch true).cursors.getD
          ((search_logs_cmd fetch true).cursors.length - 1) Json.null))) = false) ∧
    ((search_logs_cmd fetch true).err = none →
      searchOutput (search_logs_cmd fetch true)
        = Json.obj [("data",
            Json.arr (concatEntries fetch 0 (search_logs_cmd fetch true).cursors)),
          ("count",
            Json.num (concatEntries fetch 0 (search_logs_cmd fetch true).cursors).length)]) := by
  have hcmd : search_logs_cmd fetch true = searchGo fetch 50 0 Json.null := rfl
  rw [hcmd]
  refine ⟨searchGo_len fetch 50 0 Json.null, ?_, ?_, ?_⟩
  · intro j h
    simpa using searchGo_chain fetch 50 0 Json.null j h
  · intro herr h
    simpa using searchGo_last fetch 50 0 Json.null herr h
  · intro herr
    unfold searchOutput
    rw [searchGo_logs fetch 50 0 Json.null herr]

/-- C5, witness: the two-page oracle issues exactly 2 requests; the cursor of
page 0 is passed to request 1; page 1 has no cursor and the loop stops; the
output is the concatenation of both pages' entries. -/
theorem c5_search_logs_pagination_witness :
    (search_logs_cmd fetchTwoPages true).cursors.length ≤ 50 ∧
    (0 + 1 < (search_logs_cmd fetchTwoPages true).cursors.length ∧
      truthy (afterD (fetchTwoPages 0
          ((search_logs_cmd fetchTwoPages true).cursors.getD 0 Json.null))) = true ∧
      (search_logs_cmd fetchTwoPages true).cursors.getD (0 + 1) Json.null
        = afterD (fetchTwoPages 0
            ((search_logs_cmd fetchTwoPages true).cursors.getD 0 Json.null))) ∧
    ((search_logs_cmd fetchTwoPages true).err = none ∧
      (search_logs_cmd fetchTwoPages true).cursors.length < 50 ∧
      truthy (afterD (fetchTwoPages ((search_logs_cmd fetchTwoPages true).cursors.length - 1)
        ((search_logs_cmd fetchTwoPages true).cursors.getD
          ((search_logs_cmd fetchTwoPages true).cursors.length - 1) Json.null))) = false) ∧
    searchOutput (search_logs_cmd fetchTwoPages true)
      = Json.obj [("data",
          Json.arr (concatEntries fetchTwoPages 0 (search_logs_cmd fetchTwoPages true).cursors)),
        ("count",
          Json.num (concatEntries fetchTwoPages 0 (search_logs_cmd fetchTwoPages true).cursors).length)] :=
  ⟨(c5_search_logs_pagination fetchTwoPages).1,
   ⟨by decide, (c5_search_logs_pagination fetchTwoPages).2.1 0 (by decide)⟩,
   ⟨rfl, by decide, (c5_search_logs_pagination fetchTwoPages).2.2.1 rfl (by decide)⟩,
   (c5_search_logs_pagination fetchTwoPages).2.2.2 rfl⟩

/-- C10, counterexample: the loop is not total over arbitrary JSON page
responses — a page that is not a JSON object (here the number `0`) raises an
uncaught `AttributeError` at `data.get("data", [])` and the command fails. -/
theorem c10_page_shape_cex :
    (search_logs_cmd (fun _ _ => Json.num 0) true).err = some "AttributeError" := rfl

/-- `pageStep` on an object page whose cursor chain is well-shaped. -/
theorem pageStep_obj (kvs : Dict) (m p : Dict)
    (hm : (if truthy ((jLookup kvs "meta").getD Json.null)
           then (jLookup kvs "meta").getD Json.null
           else Json.obj []) = Json.obj m)
    (hp : (jLookup m "page").getD (Json.obj []) = Json.obj p) :
    pageStep (Json.obj kvs)
      = .ok ⟨(match (jLookup kvs "data").getD (Json.arr []) with
              | Json.arr xs => xs
              | _ => []),
             (jLookup p "after").getD Json.null⟩ := by
  unfold pageStep
  simp only [jGetD, bind, Except.bind, hm, hp]

/-- C10, amended: one loop iteration cannot fail on an object-shaped page
whose `meta` entry (when truthy) is an object whose `page` entry (defaulting
to the empty object) is an object; under that shape condition a page whose
`data` field is absent or not a list contributes no entries, and a page whose
`meta` field is absent or null is treated as having no cursor (the extracted
cursor is null, i.e. falsy, ending pagination normally). A page outside the
shape condition (a non-object page, or a truthy non-object `meta`, or a
non-object `meta.page`) instead raises an uncaught `AttributeError` that fails
the command. -/
theorem c10_page_shape_amended (kvs : Dict)
    (h : pageShapeOk (Json.obj kvs) = true) :
    stepOk (Json.obj kvs) = true ∧
    (jLookup kvs "data" = none → entriesD (Json.obj kvs) = []) ∧
    (∀ v, jLookup kvs "data" = some v → Json.isArr v = false →
      entriesD (Json.obj kvs) = []) ∧
    ((jLookup kvs "meta" = none ∨ jLookup kvs "meta" = some Json.null) →
      afterD (Json.obj kvs) = Json.null ∧ truthy (afterD (Json.obj kvs)) = false) := by
  simp only [pageShapeOk] at h
  split at h
  · rename_i m hm
    split at h
    · rename_i p hp
      have key := pageStep_obj kvs m p hm hp
      refine ⟨?_, ?_, ?_, ?_⟩
      · simp [stepOk, key]
      · intro hd
        simp [entriesD, key, hd]
      · intro v hd hv
        simp only [entriesD, key, hd, Option.getD_some]
        cases v <;> simp_all [Json.isArr]
      · intro hmeta
        have hmr : (jLookup kvs "meta").getD Json.null = Json.null := by
          rcases hmeta with h1 | h1 <;> simp [h1]
        rw [hmr] at hm
        have hm2 : Json.obj ([] : Dict) = Json.obj m := by
          simpa [truthy] using hm
        have hmnil : m = [] := by
          injection hm2 with h2
          exact h2.symm
        subst hmnil
        have hp2 : Json.obj ([] : Dict) = Json.obj p := by
          simpa [jLookup] using hp
        have hpnil : p = [] := by
          injection hp2 with h2
          exact h2.symm
        subst hpnil
        constructor
        · simp [afterD, key, jLookup]
        · simp [afterD, key, jLookup, truthy]
    · simp at h
  · simp at h

/-- C10, witness for the amended theorem: the page
`(data: 1, meta: null)` is well-shaped, raises nothing, contributes no
entries (its `data` is not a list), and yields a null cursor (its `meta` is
null). -/
theorem c10_page_shape_amended_witness :
    pageShapeOk (Json.obj [("data", Json.num 1), ("meta", Json.null)]) = true ∧
    stepOk (Json.obj [("data", Json.num 1), ("meta", Json.null)]) = true ∧
    entriesD (Json.obj [("data", Json.num 1), ("meta", Json.null)]) = [] ∧
    (afterD (Json.obj [("data", Json.num 1), ("meta", Json.null)]) = Json.null ∧
     truthy (afterD (Json.obj [("data", Json.num 1), ("meta", Json.null)])) = false) :=
  ⟨by decide,
   (c10_page_shape_amended [("data", Json.num 1), ("meta", Json.null)] (by decide)).1,
   (c10_page_shape_amended [("data", Json.num 1), ("meta", Json.null)] (by decide)).2.2.1
     (Json.num 1) rfl rfl,
   (c10_page_shape_amended [("data", Json.num 1), ("meta", Json.null)] (by decide)).2.2.2
     (Or.inr rfl)⟩

/-- Writing a key makes it present with the written value. -/
theorem jLookup_dictSet_self (d : Dict) (k : String) (v : Json) :
    jLookup (dictSet d k v) k = some v := by
  induction d with
  | nil => simp [dictSet, jLookup]
  | cons kv rest ih =>
    obtain ⟨k', v'⟩ := kv
    by_cases h : k' = k
    · simp [dictSet, h, jLookup]
    · simp [dictSet, h, jLookup, ih]

/-- Writing a key leaves every other key unchanged. -/
theorem jLookup_dictSet_other (d : Dict) (k : String) (v : Json) (k2 : String)
    (h : k2 ≠ k) :
    jLookup (dictSet d k v) k2 = jLookup d k2 := by
  have h2 : ¬ k = k2 := fun hh => h hh.symm
  induction d with
  | nil => simp [dictSet, jLookup, h2]
  | cons kv rest ih =>
    obtain ⟨k', v'⟩ := kv
    by_cases hk : k' = k
    · subst hk
      simp [dictSet, jLookup, h2]
    · simp [dictSet, hk, jLookup, ih]

/-- `setEnrich` on a dict without an `enrichment` entry inserts a fresh
one-entry object. -/
theorem setEnrich_of_none (d : Dict) (k : String) (v : Json)
    (h : jLookup d "enrichment" = none) :
    setEnrich d k v = .ok (dictSet d "enrichment" (Json.obj [(k, v)])) := by
  unfold setEnrich
  rw [h]

/-- `setEnrich` on a dict whose `enrichment` entry is an object writes into
it. -/
theorem setEnrich_of_obj (d : Dict) (k : String) (v : Json) (e : Dict)
    (h : jLookup d "enrichment" = some (Json.obj e)) :
    setEnrich d k v = .ok (dictSet d "enrichment" (Json.obj (dictSet e k v))) := by
  unfold setEnrich
  rw [h]

/-- The base dict itself is a reachable enrichment state when it has no
`enrichment` entry. -/
theorem dictLike_refl (base : Dict) (hE : jLookup base "enrichment" = none) :
    dictLike base base :=
  ⟨fun _ _ => rfl, Or.inl hE⟩

/-- From a reachable enrichment state, `setEnrich` succeeds and stays
reachable. -/
theorem dictLike_setEnrich (base d : Dict) (k : String) (v : Json)
    (h : dictLike base d) :
    ∃ d', setEnrich d k v = .ok d' ∧ dictLike base d' := by
  obtain ⟨hkeys, henr⟩ := h
  rcases henr with hn | ⟨e, he⟩
  · refine ⟨_, setEnrich_of_none d k v hn, ?_, ?_⟩
    · intro k2 hk2
      rw [jLookup_dictSet_other d "enrichment" _ k2 hk2]
      exact hkeys k2 hk2
    · exact Or.inr ⟨[(k, v)], jLookup_dictSet_self d "enrichment" _⟩
  · refine ⟨_, setEnrich_of_obj d k v e he, ?_, ?_⟩
    · intro k2 hk2
      rw [jLookup_dictSet_other d "enrichment" _ k2 hk2]
      exact hkeys k2 hk2
    · exact Or.inr ⟨dictSet e k v, jLookup_dictSet_self d "enrichment" _⟩

/-- The incident-type block either leaves a reachable dict, or raises
carrying the base dict unchanged. -/
theorem typeStep_char (gT : Json → Except PyExc Json) (base : Dict)
    (hE : jLookup base "enrichment" = none) :
    (∃ d2, typeStep gT base = .ok d2 ∧ dictLike base d2) ∨
    (∃ m, typeStep gT base = .error (m, base)) := by
  unfold typeStep
  cases hu : incidentTypeUuid base with
  | error m => exact Or.inr ⟨m, rfl⟩
  | ok uuid =>
    cases htu : truthy uuid with
    | false =>
      simp only [htu, Bool.false_eq_true, if_false]
      exact Or.inl ⟨base, rfl, dictLike_refl base hE⟩
    | true =>
      simp only [htu, if_true]
      cases hgt : gT uuid with
      | ok t =>
        obtain ⟨d', hset, hdl⟩ :=
          dictLike_setEnrich base base "incident_type" t (dictLike_refl base hE)
        simp only [hset]
        exact Or.inl ⟨d', rfl, hdl⟩
      | error pe =>
        cases pe with
        | apiError e => exact Or.inl ⟨base, rfl, dictLike_refl base hE⟩
        | other m => exact Or.inr ⟨m, rfl⟩

/-- The integrations block, from any reachable dict, either leaves a
reachable dict or raises carrying its input dict unchanged. -/
theorem integrationsStep_char (gI : Json → Except PyExc Json) (base d2 : Dict)
    (h : dictLike base d2) :
    (∃ d3, integrationsStep gI d2 = .ok d3 ∧ dictLike base d3) ∨
    (∃ m, integrationsStep gI d2 = .error (m, d2)) := by
  unfold integrationsStep
  cases hu : incidentIdOf d2 with
  | error m => exact Or.inr ⟨m, rfl⟩
  | ok iid =>
    cases hti : truthy iid with
    | false =>
      simp only [hti, Bool.false_eq_true, if_false]
      exact Or.inl ⟨d2, rfl, h⟩
    | true =>
      simp only [hti, if_true]
      cases hgi : gI iid with
      | ok ig =>
        obtain ⟨d', hset, hdl⟩ := dictLike_setEnrich base d2 "integrations" ig h
        simp only [hset]
        exact Or.inl ⟨d', rfl, hdl⟩
      | error pe =>
        cases pe with
        | apiError e => exact Or.inl ⟨d2, rfl, h⟩
        | other m => exact Or.inr ⟨m, rfl⟩

/-- When the type fetch can only raise API errors, the incident-type block
never writes anything: it leaves the base dict, or raises an exception of the
uuid chain. -/
theorem typeStep_api (gT : Json → Except PyExc Json) (base : Dict)
    (hapi : ∀ u, isApiErr (gT u) = true) :
    typeStep gT base = .ok base ∨ ∃ m, typeStep gT base = .error (m, base) := by
  unfold typeStep
  cases hu : incidentTypeUuid base with
  | error m => exact Or.inr ⟨m, rfl⟩
  | ok uuid =>
    cases htu : truthy uuid with
    | false =>
      simp only [htu, Bool.false_eq_true, if_false]
      exact Or.inl (by simp)
    | true =>
      simp only [htu, if_true]
      cases hgt : gT uuid with
      | ok t =>
        have := hapi uuid
        rw [hgt] at this
        simp [isApiErr] at this
      | error pe =>
        cases pe with
        | apiError e => exact Or.inl rfl
        | other m =>
          have := hapi uuid
          rw [hgt] at this
          simp [isApiErr] at this

/-- The integrations block on a dict without an `enrichment` entry: it leaves
the dict unchanged, or records the fetched integrations as the only
enrichment entry, or raises with the dict unchanged. -/
theorem integrationsStep_none (gI : Json → Except PyExc Json) (base : Dict)
    (hE : jLookup base "enrichment" = none) :
    integrationsStep gI base = .ok base ∨
    (∃ ig, integrationsStep gI base
        = .ok (dictSet base "enrichment" (Json.obj [("integrations", ig)]))) ∨
    (∃ m, integrationsStep gI base = .error (m, base)) := by
  unfold integrationsStep
  cases hu : incidentIdOf base with
  | error m => exact Or.inr (Or.inr ⟨m, rfl⟩)
  | ok iid =>
    cases hti : truthy iid with
    | false =>
      simp only [hti, Bool.false_eq_true, if_false]
      exact Or.inl (by simp)
    | true =>
      simp only [hti, if_true]
      cases hgi : gI iid with
      | ok ig =>
        simp only [setEnrich_of_none base "integrations" ig hE]
        exact Or.inr (Or.inl ⟨ig, rfl⟩)
      | error pe =>
        cases pe with
        | apiError e => exact Or.inl rfl
        | other m => exact Or.inr (Or.inr ⟨m, rfl⟩)

/-- C6: on an incident response dict without a pre-existing `enrichment`
entry, (1) enrichment never fails the command, whatever the two auxiliary
fetches do — in particular any other unexpected failure is absorbed by the
`except Exception` handler rather than propagated; (2) when the incident-type
fetch can only raise API errors, the command's output has no
`enrichment.incident_type` key and every key of the primary incident data is
preserved; (3) a non-API failure raised by the incident-type fetch is
recorded under `enrichment.errors` as the text `"Enrichment failed: ..."`. -/
theorem c6_enrich_best_effort (data : Dict)
    (hE : jLookup data "enrichment" = none) :
    (∀ gT gI : Json → Except PyExc Json,
      isErrB (enrich_incident gT gI data) = false) ∧
    (∀ gT gI : Json → Except PyExc Json, (∀ u, isApiErr (gT u) = true) →
      ∀ d, enrich_incident gT gI data = .ok d →
        enrichLookup d "incident_type" = none ∧
        ∀ k, k ≠ "enrichment" → jLookup d k = jLookup data k) ∧
    (∀ (gT gI : Json → Except PyExc Json) (u : Json) (m : String),
      incidentTypeUuid data = .ok u → truthy u = true →
      gT u = .error (.other m) →
      ∀ d, enrich_incident gT gI data = .ok d →
        enrichLookup d "errors"
          = some (Json.str ("Enrichment failed: " ++ m))) := by
  refine ⟨?_, ?_, ?_⟩
  · intro gT gI
    rcases typeStep_char gT data hE with ⟨d2, hts, hdl⟩ | ⟨m, hts⟩
    · rcases integrationsStep_char gI data d2 hdl with ⟨d3, his, _⟩ | ⟨m, his⟩
      · simp [enrich_incident, enrichBody, hts, his, isErrB]
      · obtain ⟨d', hset, _⟩ := dictLike_setEnrich data d2 "errors"
          (Json.str ("Enrichment failed: " ++ m)) hdl
        simp [enrich_incident, enrichBody, hts, his, hset, isErrB]
    · obtain ⟨d', hset, _⟩ := dictLike_setEnrich data data "errors"
        (Json.str ("Enrichment failed: " ++ m)) (dictLike_refl data hE)
      simp [enrich_incident, enrichBody, hts, hset, isErrB]
  · intro gT gI hapi d hok
    have hrun : ∀ D, enrich_incident gT gI data = Except.ok D → d = D := by
      intro D hD
      rw [hD] at hok
      injection hok.symm
    rcases typeStep_api gT data hapi with hts | ⟨m, hts⟩
    · rcases integrationsStep_none gI data hE with his | ⟨ig, his⟩ | ⟨m2, his⟩
      · have hd : d = data := hrun data (by simp [enrich_incident, enrichBody, hts, his])
        subst hd
        exact ⟨by simp [enrichLookup, hE], fun _ _ => rfl⟩
      · have hd : d = dictSet data "enrichment" (Json.obj [("integrations", ig)]) :=
          hrun _ (by simp [enrich_incident, enrichBody, hts, his])
        subst hd
        constructor
        · simp [enrichLookup, jLookup_dictSet_self, jLookup]
        · intro k hk
          exact jLookup_dictSet_other data "enrichment" _ k hk
      · have hd : d = dictSet data "enrichment"
            (Json.obj [("errors", Json.str ("Enrichment failed: " ++ m2))]) :=
          hrun _ (by
            simp [enrich_incident, enrichBody, hts, his,
              setEnrich_of_none data "errors"
                (Json.str ("Enrichment failed: " ++ m2)) hE])
        subst hd
        constructor
        · simp [enrichLookup, jLookup_dictSet_self, jLookup]
        · intro k hk
          exact jLookup_dictSet_other data "enrichment" _ k hk
    · have hd : d = dictSet data "enrichment"
          (Json.obj [("errors", Json.str ("Enrichment failed: " ++ m))]) :=
        hrun _ (by
          simp [enrich_incident, enrichBody, hts,
            setEnrich_of_none data "errors"
              (Json.str ("Enrichment failed: " ++ m)) hE])
      subst hd
      constructor
      · simp [enrichLookup, jLookup_dictSet_self, jLookup]
      · intro k hk
        exact jLookup_dictSet_other data "enrichment" _ k hk
  · intro gT gI u m hu htu hgt d hok
    have hts : typeStep gT data = .error (m, data) := by
      simp [typeStep, hu, htu, hgt]
    have hrun : enrich_incident gT gI data
        = .ok (dictSet data "enrichment"
            (Json.obj [("errors", Json.str ("Enrichment failed: " ++ m))])) := by
      simp [enrich_incident, enrichBody, hts,
        setEnrich_of_none data "errors"
          (Json.str ("Enrichment failed: " ++ m)) hE]
    rw [hrun] at hok
    have hd := hok.symm
    injection hd with hd
    subst hd
    simp [enrichLookup, jLookup_dictSet_self, jLookup]

/-- C6, witness: on the sample incident whose type fetch always raises an API
error and whose integrations fetch succeeds, the command succeeds, the result
has no `enrichment.incident_type` key, and the primary `data` entry is
preserved. -/
theorem c6_enrich_best_effort_witness :
    jLookup incidentSample "enrichment" = none ∧
    isErrB (enrich_incident typeFetchApiErr integrationsFetchOk incidentSample) = false ∧
    enrichLookup enrichedSample "incident_type" = none ∧
    jLookup enrichedSample "data" = jLookup incidentSample "data" :=
  ⟨rfl,
   (c6_enrich_best_effort incidentSample rfl).1 typeFetchApiErr integrationsFetchOk,
   ((c6_enrich_best_effort incidentSample rfl).2.1 typeFetchApiErr integrationsFetchOk
     (fun _ => rfl) enrichedSample rfl).1,
   ((c6_enrich_best_effort incidentSample rfl).2.1 typeFetchApiErr integrationsFetchOk
     (fun _ => rfl) enrichedSample rfl).2 "data" (by decide)⟩

end DdCli
